import Mathlib

/-!
Shallow embedding of the rubric evaluation engine of this repository
(`ScoringEngine` in the scoring source file): condition evaluation,
display-score snapping, redaction, tier resolution and the full
`scoreAgreement` aggregation pass.  JS numbers are modelled as `ℚ`
(`Math.round x = ⌊x + 1/2⌋`, `Math.floor = ⌊·⌋`), JS values as the
inductive `Value`, objects as association lists in insertion order, and
a rubric condition string as its source text together with its JS
evaluation semantics (`none` models a thrown exception).  The engine is
parameterised by the loaded `MetricsData` configuration, whose JSON file
is not part of the sources.
-/

namespace Engine

/-- A JS value as the engine distinguishes them: `null`, `undefined`,
numbers, strings and booleans. -/
inductive Value where
  | null
  | undef
  | num (q : ℚ)
  | str (s : String)
  | bool (b : Bool)
deriving DecidableEq, Repr

/-- A facts record: an object, i.e. an association list of fields in
insertion order. -/
abbrev Facts := List (String × Value)

/-- Property access `facts[key]`: an absent field reads as `undefined`. -/
def jsGet (facts : Facts) (key : String) : Value :=
  match facts.find? (fun p => p.1 == key) with
  | some p => p.2
  | none => Value.undef

/-- JS numeric coercion as used in the engine comparisons: `null` is 0,
booleans are 0/1, `undefined` is NaN (`none`); numeric strings are
simplified to NaN as the rubric compares numeric facts only. -/
def jsNum (v : Value) : Option ℚ :=
  match v with
  | Value.num q => some q
  | Value.bool b => some (if b then 1 else 0)
  | Value.null => some 0
  | _ => none

/-- JS `v <= bound` for a numeric bound (false on NaN). -/
def jsLEv (v : Value) (bound : ℚ) : Bool :=
  match jsNum v with
  | some q => decide (q ≤ bound)
  | none => false

/-- JS `v >= bound` for a numeric bound (false on NaN). -/
def jsGEv (v : Value) (bound : ℚ) : Bool :=
  match jsNum v with
  | some q => decide (bound ≤ q)
  | none => false

/-- JS `v > bound` for a numeric bound (false on NaN). -/
def jsGTv (v : Value) (bound : ℚ) : Bool :=
  match jsNum v with
  | some q => decide (bound < q)
  | none => false

/-- JS `v <= (bound ?? Number.POSITIVE_INFINITY)`: with no bound every
non-NaN value passes. -/
def jsLEvOpt (v : Value) (bound : Option ℚ) : Bool :=
  match bound with
  | some b => jsLEv v b
  | none => (jsNum v).isSome

/-- JS falsiness: `null`, `undefined`, the empty string, 0 and `false`. -/
def jsFalsy (v : Value) : Bool :=
  match v with
  | Value.null => true
  | Value.undef => true
  | Value.str s => s == ""
  | Value.num q => q == 0
  | Value.bool b => !b

/-- Truthiness of an optional string field (absent or empty is falsy). -/
def strOptTruthy (s : Option String) : Bool :=
  match s with
  | some t => t != ""
  | none => false

/-- Truthiness of an optional number field (absent or 0 is falsy). -/
def numOptTruthy (q : Option ℚ) : Bool :=
  match q with
  | some x => x != 0
  | none => false

/-- JS strict equality `tier === relevantTier` between a string-or-absent
and a string-or-null: true exactly when both are present and equal. -/
def tierEq (a b : Option String) : Bool :=
  match a, b with
  | some x, some y => x == y
  | _, _ => false

/-- JS `Math.floor` on the rational model. -/
def jsFloor (q : ℚ) : ℤ := ⌊q⌋

/-- JS `Math.round` on the rational model (half rounds up). -/
def jsRound (q : ℚ) : ℤ := ⌊q + 1 / 2⌋

/-- A rubric condition: its source string and its JS evaluation
(`none` models `new Function` throwing). -/
structure Cond where
  src : String
  eval : Facts → Option Bool

/-- `evaluateCondition`: evaluate the condition against the facts,
catching any thrown error and returning `false` (fail closed). -/
def evaluateCondition (condition : Cond) (facts : Facts) : Bool :=
  match condition.eval facts with
  | some b => b
  | none => false

/-- Truthiness-plus-evaluation `rule.condition && evaluateCondition(...)`
as the rule loops test it. -/
def condHolds (c : Option Cond) (facts : Facts) : Bool :=
  match c with
  | some cond => (cond.src != "") && evaluateCondition cond facts
  | none => false

/-- `snapToDisplayScore`: remap a raw score into the ceiling-specific
display band. -/
def snapToDisplayScore (score : ℚ) (max : ℚ) : ℚ :=
  let roundedScore : ℚ := ((jsRound score : ℤ) : ℚ)
  if max = 100 then
    if roundedScore ≤ 12 then 13
    else if 85 ≤ roundedScore then 85
    else roundedScore
  else if max = 25 then
    if roundedScore ≤ 5 then 6
    else if 17 ≤ roundedScore then 17
    else roundedScore
  else if max = 20 then
    if roundedScore ≤ 4 then 5
    else if 16 ≤ roundedScore then 16
    else roundedScore
  else if max = 15 then
    if roundedScore ≤ 3 then 4
    else if 10 ≤ roundedScore then 10
    else roundedScore
  else if max = 10 then
    if roundedScore ≤ 2 then 3
    else if 7 ≤ roundedScore then 7
    else roundedScore
  else if max = 5 then
    if roundedScore ≤ 2 then 2
    else 3
  else
    if roundedScore ≤ 0 then Max.max 1 ((jsRound (max * (15 / 100)) : ℤ) : ℚ)
    else if max ≤ roundedScore then Max.max 1 ((jsFloor (max * (88 / 100)) : ℤ) : ℚ)
    else roundedScore

/-! Configuration model (the `MetricsData` interfaces of the source). -/

/-- A valuation tier: an optional `[min, max]` band and a display label. -/
structure FdvTier where
  min : Option ℚ
  max : Option ℚ
  label : String

/-- An exchange tier: its exchange-name set and a display label (the
`avgSpreads` field of the JSON shape is never read by the engine and is
omitted). -/
structure ExchangeTier where
  exchanges : List String
  label : String

/-- One row of a tiered range table. -/
structure ScoringRange where
  max : Option ℚ
  score : ℚ
  autoDowngrade : Option ℚ

/-- A finding template attached to a rule. -/
structure FindingTemplate where
  severity : String
  title : String
  description : String
  recommendation : String

/-- A scoring rule: all fields optional, as in the source interface. -/
structure ScoringRule where
  score : Option ℚ
  description : Option String
  condition : Option Cond
  autoDowngrade : Option ℚ
  tier : Option String
  ranges : Option (List ScoringRange)
  finding : Option FindingTemplate

/-- A component of a metric. -/
structure Component where
  id : String
  name : String
  weight : Option ℚ
  scoring : List ScoringRule

/-- A metric: either nested components or a flat rule list. -/
structure Metric where
  id : String
  name : String
  weight : Option ℚ
  fdvDependent : Bool
  exchangeDependent : Bool
  components : Option (List Component)
  scoring : Option (List ScoringRule)

/-- A rating band of the rating scale. -/
structure RatingBand where
  min : ℚ
  grade : String
  description : String

/-- A global auto-downgrade rule. -/
structure AutoDowngrade where
  condition : Cond
  adjustment : ℚ
  finding : Option FindingTemplate

/-- A red-flag rule: a condition and a description. -/
structure RedFlagRule where
  condition : Cond
  description : String

/-- The two red-flag lists. -/
structure RedFlags where
  critical : Option (List RedFlagRule)
  major : Option (List RedFlagRule)

/-- The loaded configuration (the `findings.allocation` block of the JSON
shape is never read by the engine and is omitted). -/
structure MetricsData where
  version : String
  fdvTiers : List (String × FdvTier)
  exchangeTiers : List (String × ExchangeTier)
  metrics : List Metric
  ratingScale : List RatingBand
  autoDowngrades : Option (List AutoDowngrade)
  redFlags : Option RedFlags

/-! Result model. -/

/-- A finding record of the result. -/
structure Finding where
  severity : String
  category : String
  title : String
  description : String
  recommendation : String
  metric : String
  component : Option String
deriving DecidableEq, Repr

/-- Tier context of the result. -/
structure TierInfo where
  fdvTier : String
  fdvTierLabel : String
  exchangeTier : String
  exchangeTierLabel : String
  fdvValue : Value
  exchangeName : Value
deriving DecidableEq, Repr

/-- Per-component breakdown. -/
structure ComponentScore where
  score : ℚ
  maxPossible : ℚ
  flags : List String
  findings : List Finding
deriving DecidableEq, Repr

/-- Per-metric score record. -/
structure MetricScore where
  score : ℚ
  maxPossible : ℚ
  achieved : ℚ
  components : List (String × ComponentScore)
  findings : List Finding
deriving DecidableEq, Repr

/-- The scoring result. -/
structure ScoringResult where
  totalScore : ℚ
  grade : String
  gradeDescription : String
  metrics : List (String × MetricScore)
  flags : List String
  recommendations : List String
  tierInfo : TierInfo
  findings : List Finding
deriving DecidableEq, Repr

/-- The fixed upsell text of `redactResult`. -/
def REDACTION_MESSAGE : String :=
  "Upgrade to Pro to unlock detailed findings and strategic advice."

/-- The fixed text every flat flag is replaced with. -/
def FLAG_REDACTION_MESSAGE : String :=
  "Potential risk identified (Upgrade to reveal)"

/-- Redact one finding: description and recommendation replaced, the rest
kept. -/
def redactFinding (f : Finding) : Finding :=
  { f with description := REDACTION_MESSAGE, recommendation := REDACTION_MESSAGE }

/-- `redactResult`: the degraded view of a result for viewers without
entitlement. -/
def redactResult (result : ScoringResult) : ScoringResult :=
  { result with
    recommendations := result.recommendations.map (fun _ => REDACTION_MESSAGE)
    findings := result.findings.map redactFinding
    flags := result.flags.map (fun _ => FLAG_REDACTION_MESSAGE)
    metrics := result.metrics.map (fun p =>
      (p.1, { p.2 with findings := p.2.findings.map redactFinding })) }

/-- Label fallback `metrics.fdvTiers["MicroCap"]?.label || "Micro Cap"`. -/
def fdvFallbackLabel (md : MetricsData) : String :=
  match md.fdvTiers.find? (fun p => p.1 == "MicroCap") with
  | some p => if p.2.label = "" then "Micro Cap" else p.2.label
  | none => "Micro Cap"

/-- Label fallback `metrics.exchangeTiers["Tier3"]?.label || "Tier 3"`. -/
def exchangeFallbackLabel (md : MetricsData) : String :=
  match md.exchangeTiers.find? (fun p => p.1 == "Tier3") with
  | some p => if p.2.label = "" then "Tier 3" else p.2.label
  | none => "Tier 3"

/-- Whether a valuation falls in a tier band, `min ?? 0` and
`max ?? Infinity` applied. -/
def fdvInBand (fdv : Value) (t : FdvTier) : Bool :=
  jsGEv fdv (t.min.getD 0) && jsLEvOpt fdv t.max

/-- `getTier`: resolve the valuation tier; `null`/`undefined` and any
unmatched value fall back to `MicroCap`. -/
def getTier (md : MetricsData) (fdv : Value) : String × String :=
  if fdv = Value.null ∨ fdv = Value.undef then
    ("MicroCap", fdvFallbackLabel md)
  else
    match md.fdvTiers.find? (fun p => fdvInBand fdv p.2) with
    | some p => (p.1, p.2.label)
    | none => ("MicroCap", fdvFallbackLabel md)

/-- `getExchangeTier`: resolve the exchange tier; a falsy exchange value
and any unmatched name fall back to `Tier3`. -/
def getExchangeTier (md : MetricsData) (exchange : Value) : String × String :=
  if jsFalsy exchange then
    ("Tier3", exchangeFallbackLabel md)
  else
    match md.exchangeTiers.find? (fun p =>
        match exchange with
        | Value.str s => p.2.exchanges.contains s
        | _ => false) with
    | some p => (p.1, p.2.label)
    | none => ("Tier3", exchangeFallbackLabel md)

/-- `createFinding`. -/
def createFinding (severity category title description recommendation metric : String)
    (component : Option String) : Finding :=
  ⟨severity, category, title, description, recommendation, metric, component⟩

/-! The weighted aggregation pass of `scoreAgreement`. -/

/-- Whether a list of characters starts with a pattern. -/
def leadMatch : List Char → List Char → Bool
  | [], _ => true
  | _ :: _, [] => false
  | p :: ps, c :: cs => p == c && leadMatch ps cs

/-- Whether a pattern occurs somewhere in a list of characters. -/
def occursIn (pat : List Char) : List Char → Bool
  | [] => leadMatch pat []
  | c :: cs => leadMatch pat (c :: cs) || occursIn pat cs

/-- JS `s.includes(pat)`. -/
def jsIncludes (s pat : String) : Bool :=
  occursIn pat.toList s.toList

/-- The relevant tier of a metric: the valuation tier when
`fdvDependent`, else the exchange tier when `exchangeDependent`, else
null. -/
def relevantTierOf (metric : Metric) (fdvTier exchangeTier : String) : Option String :=
  if metric.fdvDependent then some fdvTier
  else if metric.exchangeDependent then some exchangeTier
  else none

/-- One step of the max scan over a component's rules: a tiered rule
contributes its range scores when the rule's tier is truthy and equals
the truthy relevant tier; a rule with a truthy static score and a falsy
tier contributes that score. -/
def codeMaxStep (relevantTier : Option String) (maxAcc : ℚ) (rule : ScoringRule) : ℚ :=
  if rule.ranges.isSome && strOptTruthy rule.tier then
    if strOptTruthy relevantTier && tierEq rule.tier relevantTier then
      (rule.ranges.getD []).foldl (fun acc r => Max.max acc r.score) maxAcc
    else maxAcc
  else if numOptTruthy rule.score && !(strOptTruthy rule.tier) then
    Max.max maxAcc (rule.score.getD 0)
  else maxAcc

/-- The max scan over a component's rules (the first loop of the
component branch). -/
def componentMaxScore (relevantTier : Option String) (rules : List ScoringRule) : ℚ :=
  rules.foldl (codeMaxStep relevantTier) 0

/-- Outcome of the first applied rule of a component rule list. -/
inductive CompOutcome where
  | missingData
  | rangeHit (score : ℚ) (autoDG : Bool)
  | condHit (rule : ScoringRule)

/-- First-match rule application over a component's rules: tiered rules
whose truthy tier equals the relevant tier consult the governing fact
(`null` is missing data, otherwise the first range row that admits the
value), condition rules apply when their condition holds; everything
else is skipped. -/
def scoreComponentRules (facts : Facts) (relevantTier : Option String) (cid : String) :
    List ScoringRule → Option CompOutcome
  | [] => none
  | rule :: rest =>
    if strOptTruthy rule.tier && rule.ranges.isSome then
      if tierEq rule.tier relevantTier then
        let value := jsGet facts cid
        if value = Value.null then some CompOutcome.missingData
        else
          match (rule.ranges.getD []).find? (fun r => jsLEvOpt value r.max) with
          | some rg => some (CompOutcome.rangeHit rg.score (numOptTruthy rg.autoDowngrade))
          | none => scoreComponentRules facts relevantTier cid rest
      else scoreComponentRules facts relevantTier cid rest
    else if condHolds rule.condition facts then some (CompOutcome.condHit rule)
    else scoreComponentRules facts relevantTier cid rest

/-- What evaluating one component contributes. -/
structure CompRulesOut where
  score : ℚ
  compFlags : List String
  compFindings : List Finding
  globalFlags : List String
deriving Repr

/-- Evaluate one component: first-match rule application, then the
missing-data fallback when no rule applied and the governing fact is
explicitly null. -/
def evalComponent (facts : Facts) (relevantTier : Option String)
    (metricName metricId : String) (component : Component) : CompRulesOut :=
  match scoreComponentRules facts relevantTier component.id component.scoring with
  | some CompOutcome.missingData =>
    ⟨0, ["Missing data: " ++ component.name], [], []⟩
  | some (CompOutcome.rangeHit s adg) =>
    ⟨s, [], [],
      if adg then ["Auto-downgrade applied for " ++ component.name] else []⟩
  | some (CompOutcome.condHit rule) =>
    ⟨rule.score.getD 0,
      (if strOptTruthy rule.description then [rule.description.getD ""] else []),
      (match rule.finding with
       | some ft => [createFinding ft.severity metricName ft.title ft.description
           ft.recommendation metricId (some component.id)]
       | none => []),
      if numOptTruthy rule.autoDowngrade
      then ["Auto-downgrade applied for " ++ component.name] else []⟩
  | none =>
    if jsGet facts component.id = Value.null then
      ⟨0, ["Missing data: " ++ component.name], [], []⟩
    else ⟨0, [], [], []⟩

/-- The flat-metric rule loop: accumulate the max of `score ?? 0` over
the rules seen so far, stopping at the first rule whose condition holds
(the rules after it are not scanned). -/
def flatScan (facts : Facts) : List ScoringRule → ℚ → Option ScoringRule × ℚ
  | [], maxAcc => (none, maxAcc)
  | rule :: rest, maxAcc =>
    let m := Max.max maxAcc (rule.score.getD 0)
    if condHolds rule.condition facts then (some rule, m)
    else flatScan facts rest m

/-- What evaluating one metric contributes. -/
structure MetricOut where
  ms : MetricScore
  globalFlags : List String
  globalFindings : List Finding
  newRecs : List String
deriving Repr

/-- Evaluate one metric: the component path when `components` is a
non-empty list, else the flat path when `scoring` is a non-empty list,
else an all-zero record. -/
def evalMetric (facts : Facts) (fdvTier exchangeTier : String) (metric : Metric) :
    MetricOut :=
  let metricWeight := metric.weight.getD 1
  let relevantTier := relevantTierOf metric fdvTier exchangeTier
  match metric.components with
  | some (c :: cs) =>
    let outs := (c :: cs).map (fun comp =>
      (comp, evalComponent facts relevantTier metric.name metric.id comp))
    let componentAchieved := outs.foldl
      (fun acc p => acc + p.2.score * p.1.weight.getD 1) 0
    let componentPossible := outs.foldl
      (fun acc p => acc + componentMaxScore relevantTier p.1.scoring * p.1.weight.getD 1) 0
    ⟨⟨if 0 < componentPossible then componentAchieved / componentPossible * 100 else 0,
      componentPossible, componentAchieved,
      outs.map (fun p =>
        (p.1.id, ⟨p.2.score, componentMaxScore relevantTier p.1.scoring,
          p.2.compFlags, p.2.compFindings⟩)),
      []⟩,
     (outs.map (fun p => p.2.globalFlags)).flatten,
     (outs.map (fun p => p.2.compFindings)).flatten,
     []⟩
  | _ =>
    match metric.scoring with
    | some (r :: rs) =>
      let out := flatScan facts (r :: rs) 0
      let maxMetricScore := out.2
      let metricScore := match out.1 with
        | some rule => rule.score.getD 0
        | none => 0
      let metricFindings := match out.1 with
        | some rule =>
          (match rule.finding with
           | some ft => [createFinding ft.severity metric.name ft.title ft.description
               ft.recommendation metric.id none]
           | none => [])
        | none => []
      ⟨⟨if 0 < maxMetricScore then metricScore / maxMetricScore * 100 else 0,
        maxMetricScore * metricWeight, metricScore * metricWeight, [], metricFindings⟩,
       (match out.1 with
        | some rule =>
          if numOptTruthy rule.autoDowngrade
          then ["Auto-downgrade applied for " ++ metric.name] else []
        | none =>
          if facts.any (fun p => p.2 == Value.null && jsIncludes metric.id p.1)
          then ["Missing data for metric: " ++ metric.name] else []),
       metricFindings,
       (match out.1 with
        | some rule =>
          if strOptTruthy rule.description then [rule.description.getD ""] else []
        | none => [])⟩
    | _ => ⟨⟨0, 0, 0, [], []⟩, [], [], []⟩

/-- `generateFindings`: the built-in termination-rights and clawback
pattern checks (the tier arguments are accepted and unused, as in the
source). -/
def generateFindings (facts : Facts) (fdvTier exchangeTier : String) : List Finding :=
  let terminationFindings :=
    if jsGet facts "windDownDefined" ≠ Value.undef ∧
        jsGet facts "noticePeriodDays" ≠ Value.undef then
      let noticePeriod := jsGet facts "noticePeriodDays"
      if jsGEv noticePeriod 30 && jsLEv noticePeriod 60 then
        [createFinding "Low" "Termination Rights" "Market termination rights"
          "30–60 days notice with clear 7–30 day wind-down procedures."
          "Ensure wind-down procedures are well defined and practical."
          "agreementStructure" (some "termination")]
      else if jsGTv noticePeriod 60 && jsLEv noticePeriod 90 then
        [createFinding "Low" "Termination Rights" "Market termination rights"
          "60–90 days notice with defined wind-down."
          "Maintain defined wind-down procedures for smooth transition."
          "agreementStructure" (some "termination")]
      else if jsGTv noticePeriod 90 && jsLEv noticePeriod 120 then
        [createFinding "Medium" "Termination Rights" "Market termination rights"
          "90–120 days notice with only basic wind-down."
          "Enhance wind-down details for clarity and fairness."
          "agreementStructure" (some "termination")]
      else if jsGTv noticePeriod 120 && jsLEv noticePeriod 180 then
        [createFinding "Medium" "Termination Rights" "Market termination rights"
          ">120 days notice but some procedures exist."
          "Consider shortening notice period while keeping procedures."
          "agreementStructure" (some "termination")]
      else if jsGTv noticePeriod 180 then
        [createFinding "High" "Termination Rights" "Market termination rights"
          "Excessive notice periods (>180 days) or unclear procedures."
          "Revise termination terms to balance notice and wind-down procedures."
          "agreementStructure" (some "termination")]
      else []
    else []
  let clawbackFindings :=
    if jsGet facts "clawback" ≠ Value.undef then
      let clawback := jsGet facts "clawback"
      if clawback = Value.str "strong" then
        [createFinding "Low" "Vesting Terms" "Strong clawback provisions"
          "Strong clawback provisions tied to performance milestones with automatic triggers."
          "Maintain robust clawback mechanisms to ensure accountability."
          "tokenEconomics" (some "clawback")]
      else if clawback = Value.str "moderate" then
        [createFinding "Low" "Vesting Terms" "Moderate clawback provisions"
          "Moderate clawback provisions with clear triggers and enforcement mechanisms."
          "Ensure enforcement remains consistent and transparent."
          "tokenEconomics" (some "clawback")]
      else if clawback = Value.str "basic" then
        [createFinding "Medium" "Vesting Terms" "Basic clawback provisions"
          "Basic clawback provisions with some performance requirements."
          "Enhance clawback provisions to include stronger performance-based triggers."
          "tokenEconomics" (some "clawback")]
      else if clawback = Value.str "weak" then
        [createFinding "Medium" "Vesting Terms" "Weak clawback provisions"
          "Weak clawback mechanisms with limited enforcement."
          "Strengthen enforcement mechanisms and link clawback to performance milestones."
          "tokenEconomics" (some "clawback")]
      else []
    else []
  terminationFindings ++ clawbackFindings

/-- `processRedFlags`: all critical red flags whose condition holds, then
all major ones; each contributes a finding and a flat flag string. -/
def processRedFlags (md : MetricsData) (facts : Facts) : List Finding × List String :=
  match md.redFlags with
  | none => ([], [])
  | some rf =>
    let crit := (rf.critical.getD []).filter (fun f => evaluateCondition f.condition facts)
    let maj := (rf.major.getD []).filter (fun f => evaluateCondition f.condition facts)
    (crit.map (fun f => createFinding "Critical" "Critical Red Flag"
        "Critical Issue Detected" f.description
        "Immediate attention required. This term is highly non-standard."
        "redFlag" (some "critical")) ++
     maj.map (fun f => createFinding "High" "Major Red Flag"
        "Major Issue Detected" f.description
        "Strongly recommended to negotiate this term."
        "redFlag" (some "major")),
     crit.map (fun f => f.description) ++ maj.map (fun f => f.description))

/-- The auto-downgrade pass: rules in declared order; each applicable
rule adjusts the running total, clamped below at 0 by `Math.max`, and
contributes an audit flag and optionally a finding. -/
def applyDowngrades (facts : Facts) (total : ℚ) :
    List AutoDowngrade → ℚ × List String × List Finding
  | [] => (total, [], [])
  | dg :: rest =>
    if evaluateCondition dg.condition facts then
      let next := applyDowngrades facts (Max.max 0 (total + dg.adjustment)) rest
      (next.1,
       ("Auto-downgrade applied: " ++ dg.condition.src) :: next.2.1,
       (match dg.finding with
        | some ft => [createFinding ft.severity "Auto Downgrade" ft.title
            ft.description ft.recommendation "system" none]
        | none => []) ++ next.2.2)
    else applyDowngrades facts total rest

/-- Helper of `jsSetDedup`, keeping each string's first occurrence. -/
def dedupFrom (seen : List String) : List String → List String
  | [] => []
  | x :: xs => if seen.contains x then dedupFrom seen xs else x :: dedupFrom (x :: seen) xs

/-- `Array.from(new Set(l))`: deduplicate, keeping first occurrences in
order. -/
def jsSetDedup (l : List String) : List String := dedupFrom [] l

/-- Re-snap one metric record: snap the achieved value against the
metric ceiling and recompute the percentage from the snapped value. -/
def snapMetric (m : MetricScore) : MetricScore :=
  let achieved := snapToDisplayScore m.achieved m.maxPossible
  ⟨if 0 < m.maxPossible then achieved / m.maxPossible * 100 else 0,
   m.maxPossible, achieved, m.components, m.findings⟩

/-- The raw engine total before downgrades: weighted achieved over
weighted possible across all metrics, as a percentage, 0 when nothing
was possible. -/
def rawTotal (md : MetricsData) (facts : Facts) : ℚ :=
  let fdvTierInfo := getTier md (jsGet facts "fdv")
  let exchangeTierInfo := getExchangeTier md (jsGet facts "exchange")
  let mouts := md.metrics.map (evalMetric facts fdvTierInfo.1 exchangeTierInfo.1)
  let totalAchieved := mouts.foldl (fun acc m => acc + m.ms.achieved) 0
  let totalPossible := mouts.foldl (fun acc m => acc + m.ms.maxPossible) 0
  if 0 < totalPossible then totalAchieved / totalPossible * 100 else 0

/-- The pre-snap total: the raw total with every applicable
auto-downgrade applied. -/
def preSnapTotal (md : MetricsData) (facts : Facts) : ℚ :=
  (applyDowngrades facts (rawTotal md facts) (md.autoDowngrades.getD [])).1

/-- `scoreAgreement`: the full evaluation pass, from tier resolution to
snapping, grading and recommendation dedup. -/
def scoreAgreement (md : MetricsData) (facts : Facts) : ScoringResult :=
  let fdvTierInfo := getTier md (jsGet facts "fdv")
  let exchangeTierInfo := getExchangeTier md (jsGet facts "exchange")
  let tierInfo : TierInfo :=
    ⟨fdvTierInfo.1, fdvTierInfo.2, exchangeTierInfo.1, exchangeTierInfo.2,
     jsGet facts "fdv", jsGet facts "exchange"⟩
  let rf := processRedFlags md facts
  let findings1 := generateFindings facts fdvTierInfo.1 exchangeTierInfo.1 ++ rf.1
  let mouts := md.metrics.map (fun metric =>
    (metric, evalMetric facts fdvTierInfo.1 exchangeTierInfo.1 metric))
  let flags2 := rf.2 ++ (mouts.map (fun p => p.2.globalFlags)).flatten
  let findings2 := findings1 ++ (mouts.map (fun p => p.2.globalFindings)).flatten
  let recs1 := (mouts.map (fun p => p.2.newRecs)).flatten
  let dg := applyDowngrades facts (rawTotal md facts) (md.autoDowngrades.getD [])
  let flags3 := flags2 ++ dg.2.1
  let findings3 := findings2 ++ dg.2.2
  let snappedMetrics := mouts.map (fun p => (p.1.id, snapMetric p.2.ms))
  let totalScore := snapToDisplayScore dg.1 100
  let gradePair :=
    match md.ratingScale.find? (fun band => decide (band.min ≤ totalScore)) with
    | some band => (band.grade, band.description)
    | none => ("", "")
  let collected := (findings3.map (fun f => f.recommendation)).filter
    (fun r => r != "" && decide (0 < r.trim.length))
  ⟨totalScore, gradePair.1, gradePair.2, snappedMetrics, flags3,
   jsSetDedup (recs1 ++ collected), tierInfo, findings3⟩

/-! Concrete fixtures used by counterexamples and witnesses. -/

/-- A condition whose JS evaluation returns `true` on every facts record. -/
def condTrue : Cond := ⟨"facts.ok === true", fun _ => some true⟩

/-- A condition whose JS evaluation returns `false` on every facts record. -/
def condFalse : Cond := ⟨"facts.no === true", fun _ => some false⟩

/-- A condition whose JS evaluation throws on every facts record. -/
def condRaise : Cond := ⟨"facts.zzz.boom", fun _ => none⟩

/-- A plain condition rule with a static score. -/
def condRule (s : ℚ) (c : Cond) : ScoringRule :=
  ⟨some s, none, some c, none, none, none, none⟩

/-- A flat metric with the given rule list. -/
def flatMetric (rules : List ScoringRule) : Metric :=
  ⟨"m", "M", none, false, false, none, some rules⟩

/-- A minimal configuration holding the given metrics and downgrades. -/
def mkCfg (ms : List Metric) (dgs : Option (List AutoDowngrade)) : MetricsData :=
  ⟨"1", [], [], ms, [⟨0, "A", "ok"⟩], dgs, none⟩

/-- Modelled from the spec: the max-determination of section 4.3 — the
maximum achievable points of a rule list is found by scanning all rules;
a tiered rule contributes the maximum across all its range entries when
its tier equals the resolved relevant tier, a conditional (static-score)
rule contributes its point value when it is tier-agnostic.  Stated as a
definition of its own to compare with the source's computation (the
`metrics.json` configuration that fixes the rule lists is not among the
sources). -/
def specMaxStep (relevantTier : Option String) (maxAcc : ℚ) (rule : ScoringRule) : ℚ :=
  match rule.ranges with
  | some ranges =>
    if tierEq rule.tier relevantTier then
      ranges.foldl (fun acc r => Max.max acc r.score) maxAcc
    else maxAcc
  | none =>
    if rule.tier = none then Max.max maxAcc (rule.score.getD 0)
    else maxAcc

/-- Modelled from the spec: the maximum achievable points of a rule
list, scanning all rules with `specMaxStep`. -/
def specMaxPoints (relevantTier : Option String) (rules : List ScoringRule) : ℚ :=
  rules.foldl (specMaxStep relevantTier) 0

/-- Modelled from the spec: a scoring rule is one of the two documented
kinds — a tiered range table (ranges present, with a named non-empty
tier) or a tier-agnostic condition rule (no ranges, no tier).  The
`metrics.json` configuration that would fix the actual rule shapes is
not among the sources. -/
def wellFormedRule (rule : ScoringRule) : Prop :=
  (rule.ranges.isSome ∧ ∃ s, rule.tier = some s ∧ s ≠ "") ∨
  (rule.ranges = none ∧ rule.tier = none)

/-- A resolved relevant tier is either null or a non-empty tier name. -/
def tierNameOk (rt : Option String) : Prop :=
  rt = none ∨ ∃ s, rt = some s ∧ s ≠ ""

/-- Modelled from the spec: every configured tier carries a display
label (section 3, tier definitions).  The `metrics.json` configuration
that would fix the actual labels is not among the sources. -/
def labelsWellFormed (md : MetricsData) : Prop :=
  (∀ p ∈ md.fdvTiers, p.2.label ≠ "") ∧ (∀ p ∈ md.exchangeTiers, p.2.label ≠ "")

/-- Configuration of the C1 counterexample: one flat metric whose single
rule matches with a static score of 0, so the metric's max possible is
0. -/
def cfgZeroMax : MetricsData := mkCfg [flatMetric [condRule 0 condTrue]] none

/-- Configuration with one flat metric whose single rule matches with
score 5. -/
def cfgOne : MetricsData := mkCfg [flatMetric [condRule 5 condTrue]] none

/-- Rule list of the C3 counterexample: the first rule matches with
score 2, a later rule carries score 9. -/
def rulesPrefixMax : List ScoringRule :=
  [condRule 2 condTrue, ⟨some 9, none, none, none, none, none, none⟩]

/-- Configuration of the C3 counterexample. -/
def cfgPrefixMax : MetricsData := mkCfg [flatMetric rulesPrefixMax] none

/-- Configuration whose raw total is 90: the first rule (score 10) does
not match, the second (score 9) does, giving 9 of 10. -/
def cfgNinety (dgs : Option (List AutoDowngrade)) : MetricsData :=
  mkCfg [flatMetric [condRule 10 condFalse, condRule 9 condTrue]] dgs

/-- Configuration of the C7 conjunct: the first rule's condition throws,
the second matches with score 3 (of max 5). -/
def cfgRaise : MetricsData := mkCfg [flatMetric [condRule 5 condRaise, condRule 3 condTrue]] none

/-- Tier tables of the C6 witness. -/
def cfgTiers : MetricsData :=
  ⟨"1",
   [("LargeCap", ⟨some 1000, none, "Large"⟩), ("MicroCap", ⟨none, some 999, "Micro"⟩)],
   [("Tier1", ⟨["Binance"], "Premium"⟩), ("Tier3", ⟨[], "T3"⟩)],
   [], [⟨0, "A", "ok"⟩], none, none⟩

/-- A finding with confidential text, nested in a component breakdown
for the C8 counterexample. -/
def secretFinding : Finding :=
  ⟨"High", "cat", "title", "secret", "secret advice", "m", some "c"⟩

/-- Result fixture of the C8 counterexample: its only finding text lives
in a per-component breakdown. -/
def resultWithComponentFinding : ScoringResult :=
  ⟨50, "B", "fair",
   [("m", ⟨50, 10, 5, [("c", ⟨5, 10, ["raw flag"], [secretFinding]⟩)], []⟩)],
   [], [], ⟨"MicroCap", "Micro Cap", "Tier3", "Tier 3", Value.null, Value.null⟩, []⟩

/-- Result fixture with two distinct recommendations for the C9
witness. -/
def resultTwoRecs : ScoringResult :=
  ⟨50, "B", "fair", [], [], ["first advice", "second advice"],
   ⟨"MicroCap", "Micro Cap", "Tier3", "Tier 3", Value.null, Value.null⟩, []⟩

/-- Sanity check that the embedding evaluates on closed inputs: one flat
metric whose single rule matches with score 5 snaps to 3 of 5 and a snapped
total of 85. -/
theorem engineEval_smoke :
    (scoreAgreement (mkCfg [flatMetric [condRule 5 condTrue]] none) []).totalScore = 85 ∧
    (scoreAgreement (mkCfg [flatMetric [condRule 5 condTrue]] none) []).metrics =
      [("m", ⟨60, 5, 3, [], []⟩)] := by
  norm_num +decide [scoreAgreement, rawTotal, evalMetric, flatScan, condHolds,
    evaluateCondition, mkCfg, flatMetric, condRule, condTrue, getTier, getExchangeTier,
    jsGet, jsFalsy, applyDowngrades, snapMetric, snapToDisplayScore, jsRound, jsSetDedup,
    dedupFrom, generateFindings, processRedFlags, numOptTruthy, strOptTruthy,
    fdvFallbackLabel, exchangeFallbackLabel, relevantTierOf]

/-! Shared lemmas about score snapping. -/

/-- Generic band fact for the special ceilings: when the rounded score
lands between the two cutoffs, its cast lies in the [low cutoff + 1,
high cutoff] band. -/
theorem mid_band (n zlo zhi : ℤ) (h1 : ¬ ((n : ℚ) ≤ (zlo : ℚ))) (h2 : ¬ ((zhi : ℚ) ≤ (n : ℚ))) :
    (zlo : ℚ) + 1 ≤ (n : ℚ) ∧ (n : ℚ) ≤ (zhi : ℚ) := by
  have hlo : zlo < n := by exact_mod_cast not_le.mp h1
  have hhi : n < zhi := by exact_mod_cast not_le.mp h2
  have e1 : zlo + 1 ≤ n := by omega
  have e2 : n ≤ zhi := by omega
  constructor
  · calc (zlo : ℚ) + 1 = ((zlo + 1 : ℤ) : ℚ) := by push_cast; ring
      _ ≤ (n : ℚ) := by exact_mod_cast e1
  · exact_mod_cast e2

/-- Band of the 100-point ceiling: results lie in [13, 85]. -/
theorem snap_bounds_100 (s : ℚ) :
    13 ≤ snapToDisplayScore s 100 ∧ snapToDisplayScore s 100 ≤ 85 := by
  simp only [snapToDisplayScore]
  norm_num
  split_ifs with h1 h2
  · norm_num
  · norm_num
  · have := mid_band (jsRound s) 12 85 (by exact_mod_cast h1) (by exact_mod_cast h2)
    push_cast at this
    constructor <;> linarith [this.1, this.2]

/-- Band of the 25-point ceiling: results lie in [6, 17]. -/
theorem snap_bounds_25 (s : ℚ) :
    6 ≤ snapToDisplayScore s 25 ∧ snapToDisplayScore s 25 ≤ 17 := by
  simp only [snapToDisplayScore]
  norm_num
  split_ifs with h1 h2
  · norm_num
  · norm_num
  · have := mid_band (jsRound s) 5 17 (by exact_mod_cast h1) (by exact_mod_cast h2)
    push_cast at this
    constructor <;> linarith [this.1, this.2]

/-- Band of the 20-point ceiling: results lie in [5, 16]. -/
theorem snap_bounds_20 (s : ℚ) :
    5 ≤ snapToDisplayScore s 20 ∧ snapToDisplayScore s 20 ≤ 16 := by
  simp only [snapToDisplayScore]
  norm_num
  split_ifs with h1 h2
  · norm_num
  · norm_num
  · have := mid_band (jsRound s) 4 16 (by exact_mod_cast h1) (by exact_mod_cast h2)
    push_cast at this
    constructor <;> linarith [this.1, this.2]

/-- Band of the 15-point ceiling: results lie in [4, 10]. -/
theorem snap_bounds_15 (s : ℚ) :
    4 ≤ snapToDisplayScore s 15 ∧ snapToDisplayScore s 15 ≤ 10 := by
  simp only [snapToDisplayScore]
  norm_num
  split_ifs with h1 h2
  · norm_num
  · norm_num
  · have := mid_band (jsRound s) 3 10 (by exact_mod_cast h1) (by exact_mod_cast h2)
    push_cast at this
    constructor <;> linarith [this.1, this.2]

/-- Band of the 10-point ceiling: results lie in [3, 7]. -/
theorem snap_bounds_10 (s : ℚ) :
    3 ≤ snapToDisplayScore s 10 ∧ snapToDisplayScore s 10 ≤ 7 := by
  simp only [snapToDisplayScore]
  norm_num
  split_ifs with h1 h2
  · norm_num
  · norm_num
  · have := mid_band (jsRound s) 2 7 (by exact_mod_cast h1) (by exact_mod_cast h2)
    push_cast at this
    constructor <;> linarith [this.1, this.2]

/-- Band of the 5-point ceiling: results lie in [2, 3]. -/
theorem snap_bounds_5 (s : ℚ) :
    2 ≤ snapToDisplayScore s 5 ∧ snapToDisplayScore s 5 ≤ 3 := by
  simp only [snapToDisplayScore]
  norm_num
  split_ifs with h1
  · norm_num
  · norm_num

/-- Fallback characterization: for any ceiling other than the six
special ones, only a rounded score at or below 0 is raised (to the 15
percent mark, floored at 1) and only a rounded score at or above the
ceiling is lowered (to the 88 percent mark, floored at 1); everything
strictly inside passes through as the rounded score. -/
theorem snap_fallback (s m : ℚ) (h100 : m ≠ 100) (h25 : m ≠ 25) (h20 : m ≠ 20)
    (h15 : m ≠ 15) (h10 : m ≠ 10) (h5 : m ≠ 5) :
    snapToDisplayScore s m =
      if ((jsRound s : ℤ) : ℚ) ≤ 0 then Max.max 1 ((jsRound (m * (15 / 100)) : ℤ) : ℚ)
      else if m ≤ ((jsRound s : ℤ) : ℚ) then Max.max 1 ((jsFloor (m * (88 / 100)) : ℤ) : ℚ)
      else ((jsRound s : ℤ) : ℚ) := by
  simp only [snapToDisplayScore]
  rw [if_neg h100, if_neg h25, if_neg h20, if_neg h15, if_neg h10, if_neg h5]

/-- Every snapped score is at least 1: the engine never displays 0. -/
theorem one_le_snap (s m : ℚ) : 1 ≤ snapToDisplayScore s m := by
  by_cases h100 : m = 100
  · subst h100; linarith [(snap_bounds_100 s).1]
  by_cases h25 : m = 25
  · subst h25; linarith [(snap_bounds_25 s).1]
  by_cases h20 : m = 20
  · subst h20; linarith [(snap_bounds_20 s).1]
  by_cases h15 : m = 15
  · subst h15; linarith [(snap_bounds_15 s).1]
  by_cases h10 : m = 10
  · subst h10; linarith [(snap_bounds_10 s).1]
  by_cases h5 : m = 5
  · subst h5; linarith [(snap_bounds_5 s).1]
  rw [snap_fallback s m h100 h25 h20 h15 h10 h5]
  split_ifs with hA hB
  · exact le_max_left 1 _
  · exact le_max_left 1 _
  · have h0 : (0 : ℤ) < jsRound s := by exact_mod_cast not_le.mp hA
    have h1 : (1 : ℤ) ≤ jsRound s := h0
    exact_mod_cast h1

/-- Whenever the ceiling is at least 1, the snapped score stays at or
below it. -/
theorem snap_le (s m : ℚ) (h : 1 ≤ m) : snapToDisplayScore s m ≤ m := by
  by_cases h100 : m = 100
  · subst h100; linarith [(snap_bounds_100 s).2]
  by_cases h25 : m = 25
  · subst h25; linarith [(snap_bounds_25 s).2]
  by_cases h20 : m = 20
  · subst h20; linarith [(snap_bounds_20 s).2]
  by_cases h15 : m = 15
  · subst h15; linarith [(snap_bounds_15 s).2]
  by_cases h10 : m = 10
  · subst h10; linarith [(snap_bounds_10 s).2]
  by_cases h5 : m = 5
  · subst h5; linarith [(snap_bounds_5 s).2]
  rw [snap_fallback s m h100 h25 h20 h15 h10 h5]
  simp only [jsRound, jsFloor]
  split_ifs with hA hB
  · exact max_le h (le_trans (Int.floor_le _) (by linarith))
  · exact max_le h (le_trans (Int.floor_le _) (by linarith))
  · exact le_of_lt (not_le.mp hB)

/-- Whenever the ceiling is at least 2, the snapped score is strictly
below it: the engine never displays the literal maximum. -/
theorem snap_lt (s m : ℚ) (h : 2 ≤ m) : snapToDisplayScore s m < m := by
  by_cases h100 : m = 100
  · subst h100; linarith [(snap_bounds_100 s).2]
  by_cases h25 : m = 25
  · subst h25; linarith [(snap_bounds_25 s).2]
  by_cases h20 : m = 20
  · subst h20; linarith [(snap_bounds_20 s).2]
  by_cases h15 : m = 15
  · subst h15; linarith [(snap_bounds_15 s).2]
  by_cases h10 : m = 10
  · subst h10; linarith [(snap_bounds_10 s).2]
  by_cases h5 : m = 5
  · subst h5; linarith [(snap_bounds_5 s).2]
  rw [snap_fallback s m h100 h25 h20 h15 h10 h5]
  simp only [jsRound, jsFloor]
  split_ifs with hA hB
  · exact max_lt (by linarith) (lt_of_le_of_lt (Int.floor_le _) (by linarith))
  · exact max_lt (by linarith) (lt_of_le_of_lt (Int.floor_le _) (by linarith))
  · exact not_le.mp hB

/-- On the 100-point ceiling a rounded score strictly inside the band
passes through unchanged. -/
theorem snap_100_mid (s : ℚ) (h1 : 13 ≤ jsRound s) (h2 : jsRound s ≤ 84) :
    snapToDisplayScore s 100 = ((jsRound s : ℤ) : ℚ) := by
  simp only [snapToDisplayScore]
  norm_num
  rw [if_neg, if_neg]
  · intro hc
    have : (85 : ℤ) ≤ jsRound s := by exact_mod_cast hc
    omega
  · intro hc
    have : (jsRound s : ℤ) ≤ 12 := by exact_mod_cast hc
    omega

/-! Shared lemmas about the max scan and engine projections. -/

/-- Folding max over range scores never lowers the accumulator. -/
theorem le_foldl_max (l : List ScoringRange) (a : ℚ) :
    a ≤ l.foldl (fun acc r => Max.max acc r.score) a := by
  induction l generalizing a with
  | nil => exact le_refl a
  | cons r rs ih => exact le_trans (le_max_left a r.score) (ih (Max.max a r.score))

/-- One max-scan step never lowers the accumulator. -/
theorem codeMaxStep_ge (rt : Option String) (a : ℚ) (rule : ScoringRule) :
    a ≤ codeMaxStep rt a rule := by
  unfold codeMaxStep
  split_ifs
  · exact le_foldl_max _ a
  · exact le_refl a
  · exact le_max_left a _
  · exact le_refl a

/-- On well-formed rules and a well-formed relevant tier, the source's
max-scan step agrees with the spec's max determination step, as long as
the accumulator is non-negative. -/
theorem maxStep_eq (rt : Option String) (hrt : tierNameOk rt) (rule : ScoringRule)
    (hr : wellFormedRule rule) (a : ℚ) (ha : 0 ≤ a) :
    codeMaxStep rt a rule = specMaxStep rt a rule := by
  rcases hr with ⟨hrng, s, htier, hs⟩ | ⟨hrng, htier⟩
  · obtain ⟨ranges, hrg⟩ := Option.isSome_iff_exists.mp hrng
    rcases hrt with rfl | ⟨t, rfl, ht⟩
    · simp [codeMaxStep, specMaxStep, hrg, htier, strOptTruthy, tierEq, hs]
    · simp only [codeMaxStep, specMaxStep, hrg, htier, strOptTruthy, tierEq]
      simp [hs, ht]
  · simp only [codeMaxStep, specMaxStep, hrng, htier, strOptTruthy, numOptTruthy]
    cases hsc : rule.score with
    | none => simp [max_eq_left ha]
    | some x =>
      by_cases hx : x = 0
      · simp [hx, max_eq_left ha]
      · simp [hx]

/-- The full max scan agrees with the spec's determination on
well-formed rule lists. -/
theorem foldl_maxStep_eq (rt : Option String) (hrt : tierNameOk rt) :
    ∀ (rules : List ScoringRule) (a : ℚ), 0 ≤ a → (∀ r ∈ rules, wellFormedRule r) →
      rules.foldl (codeMaxStep rt) a = rules.foldl (specMaxStep rt) a := by
  intro rules
  induction rules with
  | nil => intro a _ _; rfl
  | cons rule rest ih =>
    intro a ha hwf
    have hstep := maxStep_eq rt hrt rule (hwf rule (List.mem_cons_self rule rest)) a ha
    have ha' : 0 ≤ codeMaxStep rt a rule := le_trans ha (codeMaxStep_ge rt a rule)
    calc (rule :: rest).foldl (codeMaxStep rt) a
        = rest.foldl (codeMaxStep rt) (codeMaxStep rt a rule) := List.foldl_cons _ _
      _ = rest.foldl (specMaxStep rt) (codeMaxStep rt a rule) :=
          ih _ ha' (fun r hr => hwf r (List.mem_cons_of_mem rule hr))
      _ = rest.foldl (specMaxStep rt) (specMaxStep rt a rule) := by rw [hstep]
      _ = (rule :: rest).foldl (specMaxStep rt) a := (List.foldl_cons _ _).symm

/-- The total score of a result is the snapped pre-snap total. -/
theorem scoreAgreement_totalScore_eq (md : MetricsData) (facts : Facts) :
    (scoreAgreement md facts).totalScore = snapToDisplayScore (preSnapTotal md facts) 100 := rfl

/-- The metrics of a result are the snapped per-metric records. -/
theorem scoreAgreement_metrics_eq (md : MetricsData) (facts : Facts) :
    (scoreAgreement md facts).metrics =
      (md.metrics.map (fun metric =>
        (metric, evalMetric facts (getTier md (jsGet facts "fdv")).1
          (getExchangeTier md (jsGet facts "exchange")).1 metric))).map
        (fun p => (p.1.id, snapMetric p.2.ms)) := rfl

/-! Claim theorems. -/

/-- C1 counterexample: with a configuration whose single flat metric has
max possible 0 (one matching rule of score 0), the snapped achieved
value is 1 and exceeds maxPossible — the claim's invariant
`achieved ≤ maxPossible` fails on this result. -/
theorem scoring_result_bounds_cx :
    ∃ p ∈ (scoreAgreement cfgZeroMax []).metrics, ¬ (p.2.achieved ≤ p.2.maxPossible) := by
  have h : (scoreAgreement cfgZeroMax []).metrics = [("m", ⟨0, 0, 1, [], []⟩)] := by
    norm_num +decide [scoreAgreement, rawTotal, evalMetric, flatScan, condHolds,
      evaluateCondition, cfgZeroMax, mkCfg, flatMetric, condRule, condTrue, getTier,
      getExchangeTier, jsGet, jsFalsy, applyDowngrades, snapMetric, snapToDisplayScore,
      jsRound, numOptTruthy, strOptTruthy, relevantTierOf]
  rw [h]
  exact ⟨("m", ⟨0, 0, 1, [], []⟩), List.mem_singleton.mpr rfl, by norm_num⟩

/-- C1 (amended): for every configuration and facts record the returned
total score lies in [0, 100], and every metric whose maxPossible is at
least 1 keeps its snapped achieved value at or below maxPossible (a
metric whose maxPossible falls below 1 instead has its achieved value
raised to at least 1 by the snapping pass). -/
theorem scoring_result_bounds (md : MetricsData) (facts : Facts) :
    (0 ≤ (scoreAgreement md facts).totalScore ∧ (scoreAgreement md facts).totalScore ≤ 100) ∧
    ∀ p ∈ (scoreAgreement md facts).metrics, 1 ≤ p.2.maxPossible →
      p.2.achieved ≤ p.2.maxPossible := by
  constructor
  · rw [scoreAgreement_totalScore_eq]
    have h := snap_bounds_100 (preSnapTotal md facts)
    constructor <;> linarith [h.1, h.2]
  · intro p hp h1
    rw [scoreAgreement_metrics_eq] at hp
    obtain ⟨q, _, rfl⟩ := List.mem_map.mp hp
    exact snap_le _ _ h1

/-- C1 witness: the bounds theorem applied to the concrete one-metric
configuration whose metric snaps to 3 of 5. -/
theorem scoring_result_bounds_witness :
    (0 ≤ (scoreAgreement cfgOne []).totalScore ∧ (scoreAgreement cfgOne []).totalScore ≤ 100) ∧
    ((3 : ℚ) ≤ 5) := by
  have hm : (scoreAgreement cfgOne []).metrics = [("m", ⟨60, 5, 3, [], []⟩)] := by
    norm_num +decide [scoreAgreement, rawTotal, evalMetric, flatScan, condHolds,
      evaluateCondition, cfgOne, mkCfg, flatMetric, condRule, condTrue, getTier,
      getExchangeTier, jsGet, jsFalsy, applyDowngrades, snapMetric, snapToDisplayScore,
      jsRound, numOptTruthy, strOptTruthy, relevantTierOf]
  refine ⟨(scoring_result_bounds cfgOne []).1, ?_⟩
  have := (scoring_result_bounds cfgOne []).2 ("m", ⟨60, 5, 3, [], []⟩)
    (by rw [hm]; exact List.mem_singleton.mpr rfl) (by norm_num)
  exact this

/-- C2: rules are evaluated in declared order with first-match
short-circuit.  In a component rule list, a non-tiered rule whose
condition holds is applied at once, a rule that does not apply is
skipped in favour of the rest, a tiered rule whose tier differs from the
relevant tier is skipped, and a tiered rule on the relevant tier with a
non-null governing fact applies the first admitting range row.  In a
flat metric list, the first rule whose condition holds ends the scan.
For the list [specific-condition, catch-all] where only the catch-all
matches, the catch-all's score 4 is the one applied on both paths. -/
theorem first_match_rule_application :
    (∀ (facts : Facts) (rt : Option String) (cid : String) (rule : ScoringRule)
        (rest : List ScoringRule),
      (strOptTruthy rule.tier && rule.ranges.isSome) = false →
      condHolds rule.condition facts = true →
      scoreComponentRules facts rt cid (rule :: rest) = some (CompOutcome.condHit rule)) ∧
    (∀ (facts : Facts) (rt : Option String) (cid : String) (rule : ScoringRule)
        (rest : List ScoringRule),
      (strOptTruthy rule.tier && rule.ranges.isSome) = false →
      condHolds rule.condition facts = false →
      scoreComponentRules facts rt cid (rule :: rest) =
        scoreComponentRules facts rt cid rest) ∧
    (∀ (facts : Facts) (rt : Option String) (cid : String) (rule : ScoringRule)
        (rest : List ScoringRule),
      (strOptTruthy rule.tier && rule.ranges.isSome) = true →
      tierEq rule.tier rt = false →
      scoreComponentRules facts rt cid (rule :: rest) =
        scoreComponentRules facts rt cid rest) ∧
    (∀ (facts : Facts) (rt : Option String) (cid : String) (rule : ScoringRule)
        (rest : List ScoringRule) (rg : ScoringRange),
      (strOptTruthy rule.tier && rule.ranges.isSome) = true →
      tierEq rule.tier rt = true →
      jsGet facts cid ≠ Value.null →
      (rule.ranges.getD []).find? (fun r => jsLEvOpt (jsGet facts cid) r.max) = some rg →
      scoreComponentRules facts rt cid (rule :: rest) =
        some (CompOutcome.rangeHit rg.score (numOptTruthy rg.autoDowngrade))) ∧
    (∀ (facts : Facts) (rule : ScoringRule) (rest : List ScoringRule) (m : ℚ),
      condHolds rule.condition facts = true →
      flatScan facts (rule :: rest) m = (some rule, Max.max m (rule.score.getD 0))) ∧
    (scoreComponentRules [] none "c" [condRule 10 condFalse, condRule 4 condTrue] =
       some (CompOutcome.condHit (condRule 4 condTrue)) ∧
     (flatScan [] [condRule 10 condFalse, condRule 4 condTrue] 0).1 =
       some (condRule 4 condTrue) ∧
     (condRule 4 condTrue).score.getD 0 = 4) := by
  refine ⟨?_, ?_, ?_, ?_, ?_, ?_⟩
  · intro facts rt cid rule rest hguard hcond
    simp [scoreComponentRules, hguard, hcond]
  · intro facts rt cid rule rest hguard hcond
    simp [scoreComponentRules, hguard, hcond]
  · intro facts rt cid rule rest hguard htier
    simp [scoreComponentRules, hguard, htier]
  · intro facts rt cid rule rest rg hguard htier hnull hfind
    simp [scoreComponentRules, hguard, htier, hnull, hfind]
  · intro facts rule rest m hcond
    simp [flatScan, hcond]
  · refine ⟨?_, ?_, by norm_num [condRule]⟩ <;>
      simp [scoreComponentRules, flatScan, condHolds, condRule, condTrue, condFalse,
        evaluateCondition, strOptTruthy]

/-- C2 witness: the first-match theorem applied to a concrete matching
condition rule. -/
theorem first_match_rule_application_witness :
    scoreComponentRules [] none "c" [condRule 4 condTrue] =
      some (CompOutcome.condHit (condRule 4 condTrue)) :=
  first_match_rule_application.1 [] none "c" (condRule 4 condTrue) []
    (by simp [condRule, strOptTruthy])
    (by simp [condHolds, condRule, condTrue, evaluateCondition])

/-- C3 counterexample: in a flat metric whose first rule matches with
score 2 while a later rule carries score 9, the recorded maxPossible is
2, not the 9 a scan of ALL rules would give — the flat path stops
accumulating the max at the first match, so maxPossible is not
independent of which rule matches. -/
theorem maxPossible_determination_cx :
    ((scoreAgreement cfgPrefixMax []).metrics.map (fun p => p.2.maxPossible)) = [2] ∧
    specMaxPoints none rulesPrefixMax = 9 ∧ ¬ ((2 : ℚ) = 9) := by
  refine ⟨?_, ?_, by norm_num⟩
  · norm_num +decide [scoreAgreement, rawTotal, evalMetric, flatScan, condHolds,
      evaluateCondition, cfgPrefixMax, rulesPrefixMax, mkCfg, flatMetric, condRule,
      condTrue, getTier, getExchangeTier, jsGet, jsFalsy, applyDowngrades, snapMetric,
      snapToDisplayScore, jsRound, jsFloor, numOptTruthy, strOptTruthy, relevantTierOf]
  · norm_num +decide [specMaxPoints, specMaxStep, rulesPrefixMax, condRule, tierEq]

/-- C3 (amended): for a component, maxPossible is computed by scanning
all of the component's rules exactly as the spec's max determination
describes (shown equal to the spec-modelled determination on well-formed
rules and tiers, and independent of the facts), and the engine records
that scan per component; for a metric without components, however,
maxPossible is the maximum of `score ?? 0` over only the prefix of
rules up to and including the first matching one — tiers and range
tables are never consulted there, and rules after the match are not
scanned. -/
theorem maxPossible_determination :
    (∀ (rt : Option String) (rules : List ScoringRule), tierNameOk rt →
       (∀ r ∈ rules, wellFormedRule r) →
       componentMaxScore rt rules = specMaxPoints rt rules) ∧
    (∀ (facts : Facts) (ft et : String) (metric : Metric) (c : Component)
        (cs : List Component),
       metric.components = some (c :: cs) →
       (evalMetric facts ft et metric).ms.components.map (fun p => p.2.maxPossible) =
         (c :: cs).map (fun comp =>
           componentMaxScore (relevantTierOf metric ft et) comp.scoring)) ∧
    (∀ (facts : Facts) (rule : ScoringRule) (rest : List ScoringRule) (m : ℚ),
       condHolds rule.condition facts = true →
       flatScan facts (rule :: rest) m = (some rule, Max.max m (rule.score.getD 0))) ∧
    (∀ (facts : Facts) (rule : ScoringRule) (rest : List ScoringRule) (m : ℚ),
       condHolds rule.condition facts = false →
       flatScan facts (rule :: rest) m = flatScan facts rest (Max.max m (rule.score.getD 0))) := by
  refine ⟨?_, ?_, ?_, ?_⟩
  · intro rt rules hrt hwf
    exact foldl_maxStep_eq rt hrt rules 0 (le_refl 0) hwf
  · intro facts ft et metric c cs hcomp
    simp [evalMetric, hcomp, List.map_map]
  · intro facts rule rest m hcond
    simp [flatScan, hcond]
  · intro facts rule rest m hcond
    simp [flatScan, hcond]

/-- C3 witness: the component max determination applied to a concrete
tier-agnostic rule list and the flat prefix-stop applied to a concrete
matching rule. -/
theorem maxPossible_determination_witness :
    componentMaxScore none [condRule 4 condTrue] = specMaxPoints none [condRule 4 condTrue] ∧
    flatScan [] [condRule 4 condTrue] 7 =
      (some (condRule 4 condTrue), Max.max 7 ((condRule 4 condTrue).score.getD 0)) := by
  constructor
  · exact maxPossible_determination.1 none [condRule 4 condTrue] (Or.inl rfl)
      (by intro r hr
          simp only [List.mem_singleton] at hr
          subst hr
          exact Or.inr ⟨rfl, rfl⟩)
  · exact maxPossible_determination.2.2.1 [] (condRule 4 condTrue) [] 7
      (by simp [condHolds, condRule, condTrue, evaluateCondition])

/-- C4 counterexample: on the fallback ceiling 50 the raw score 3 passes
through as 3, strictly below the claimed 15 percent floor of 8 — interior
scores are not floored at 15 percent or capped at 88 percent — and on
the degenerate ceiling 1 a full score displays as the literal maximum
1. -/
theorem snap_display_bands_cx :
    (snapToDisplayScore 3 50 = 3 ∧
     ¬ (Max.max 1 ((jsRound ((50 : ℚ) * (15 / 100)) : ℤ) : ℚ) ≤ snapToDisplayScore 3 50)) ∧
    snapToDisplayScore 1 1 = 1 := by
  norm_num [snapToDisplayScore, jsRound, jsFloor]

/-- C4 (amended): snapping maps raw scores into ceiling-specific bands —
[13, 85] for ceiling 100, with rounded scores strictly inside the band
passing through unchanged; [6, 17], [5, 16], [4, 10], [3, 7] and [2, 3]
for ceilings 25, 20, 15, 10 and 5; for any other ceiling only a rounded
score at or below 0 is raised to max(1, round(15 percent of ceiling))
and only a rounded score at or above the ceiling is lowered to
max(1, floor(88 percent of ceiling)), interior scores passing through.
The result is never 0 (it is at least 1 for every ceiling), and it stays
strictly below the ceiling whenever the ceiling is at least 2. -/
theorem snap_display_bands :
    (∀ s : ℚ, 13 ≤ snapToDisplayScore s 100 ∧ snapToDisplayScore s 100 ≤ 85) ∧
    (∀ s : ℚ, 13 ≤ jsRound s → jsRound s ≤ 84 →
       snapToDisplayScore s 100 = ((jsRound s : ℤ) : ℚ)) ∧
    (∀ s : ℚ, 6 ≤ snapToDisplayScore s 25 ∧ snapToDisplayScore s 25 ≤ 17) ∧
    (∀ s : ℚ, 5 ≤ snapToDisplayScore s 20 ∧ snapToDisplayScore s 20 ≤ 16) ∧
    (∀ s : ℚ, 4 ≤ snapToDisplayScore s 15 ∧ snapToDisplayScore s 15 ≤ 10) ∧
    (∀ s : ℚ, 3 ≤ snapToDisplayScore s 10 ∧ snapToDisplayScore s 10 ≤ 7) ∧
    (∀ s : ℚ, 2 ≤ snapToDisplayScore s 5 ∧ snapToDisplayScore s 5 ≤ 3) ∧
    (∀ s m : ℚ, m ≠ 100 → m ≠ 25 → m ≠ 20 → m ≠ 15 → m ≠ 10 → m ≠ 5 →
       snapToDisplayScore s m =
         if ((jsRound s : ℤ) : ℚ) ≤ 0 then
           Max.max 1 ((jsRound (m * (15 / 100)) : ℤ) : ℚ)
         else if m ≤ ((jsRound s : ℤ) : ℚ) then
           Max.max 1 ((jsFloor (m * (88 / 100)) : ℤ) : ℚ)
         else ((jsRound s : ℤ) : ℚ)) ∧
    (∀ s m : ℚ, 1 ≤ snapToDisplayScore s m) ∧
    (∀ s m : ℚ, 2 ≤ m → snapToDisplayScore s m < m) :=
  ⟨snap_bounds_100, snap_100_mid, snap_bounds_25, snap_bounds_20, snap_bounds_15,
   snap_bounds_10, snap_bounds_5, snap_fallback, one_le_snap, snap_lt⟩

/-- C4 witness: the band theorem applied at concrete inputs — the
rounded score 50 passes through on the 100 ceiling, and on ceiling 7 the
snap of a full score stays below 7. -/
theorem snap_display_bands_witness :
    snapToDisplayScore 50 100 = ((jsRound (50 : ℚ) : ℤ) : ℚ) ∧
    snapToDisplayScore 7 7 < 7 := by
  constructor
  · exact snap_display_bands.2.1 50 (by norm_num [jsRound]) (by norm_num [jsRound])
  · exact snap_display_bands.2.2.2.2.2.2.2.2.2 7 7 (by norm_num)

/-- C5: the auto-downgrade pass keeps a non-negative running total
whenever it starts non-negative (each step clamps at 0), applies
applicable rules cumulatively in declared order and skips the rest; on
the concrete configuration whose raw total is 90, a single −15 downgrade
with a true condition yields a pre-snap total of exactly 75, while a +20
adjustment yields 110 — no re-clamp at 100 — and two downgrades of −15
and −10 from 20 clamp at 0 step by step. -/
theorem auto_downgrade_pass :
    (∀ (facts : Facts) (total : ℚ) (dgs : List AutoDowngrade),
       0 ≤ total → 0 ≤ (applyDowngrades facts total dgs).1) ∧
    (∀ (facts : Facts) (total : ℚ) (dg : AutoDowngrade) (rest : List AutoDowngrade),
       evaluateCondition dg.condition facts = true →
       (applyDowngrades facts total (dg :: rest)).1 =
         (applyDowngrades facts (Max.max 0 (total + dg.adjustment)) rest).1) ∧
    (∀ (facts : Facts) (total : ℚ) (dg : AutoDowngrade) (rest : List AutoDowngrade),
       evaluateCondition dg.condition facts = false →
       (applyDowngrades facts total (dg :: rest)).1 = (applyDowngrades facts total rest).1) ∧
    (rawTotal (cfgNinety (some [⟨condTrue, -15, none⟩])) [] = 90 ∧
     preSnapTotal (cfgNinety (some [⟨condTrue, -15, none⟩])) [] = 75) ∧
    (preSnapTotal (cfgNinety (some [⟨condTrue, 20, none⟩])) [] = 110) ∧
    ((applyDowngrades [] 20 [⟨condTrue, -15, none⟩, ⟨condTrue, -10, none⟩]).1 = 0) := by
  refine ⟨?_, ?_, ?_, ⟨?_, ?_⟩, ?_, ?_⟩
  · intro facts total dgs
    induction dgs generalizing total with
    | nil => intro h; exact h
    | cons dg rest ih =>
      intro h
      by_cases hc : evaluateCondition dg.condition facts
      · simp only [applyDowngrades, if_pos hc]
        exact ih (Max.max 0 (total + dg.adjustment)) (le_max_left 0 _)
      · simp only [applyDowngrades, if_neg hc]
        exact ih total h
  · intro facts total dg rest hc
    simp [applyDowngrades, hc]
  · intro facts total dg rest hc
    simp [applyDowngrades, hc]
  · norm_num +decide [rawTotal, evalMetric, flatScan, condHolds, evaluateCondition,
      cfgNinety, mkCfg, flatMetric, condRule, condTrue, condFalse, getTier,
      getExchangeTier, jsGet, jsFalsy, numOptTruthy, strOptTruthy, relevantTierOf]
  · norm_num +decide [preSnapTotal, rawTotal, evalMetric, flatScan, condHolds,
      evaluateCondition, cfgNinety, mkCfg, flatMetric, condRule, condTrue, condFalse,
      getTier, getExchangeTier, jsGet, jsFalsy, applyDowngrades, numOptTruthy,
      strOptTruthy, relevantTierOf]
  · norm_num +decide [preSnapTotal, rawTotal, evalMetric, flatScan, condHolds,
      evaluateCondition, cfgNinety, mkCfg, flatMetric, condRule, condTrue, condFalse,
      getTier, getExchangeTier, jsGet, jsFalsy, applyDowngrades, numOptTruthy,
      strOptTruthy, relevantTierOf]
  · norm_num [applyDowngrades, evaluateCondition, condTrue]

/-- C5 witness: the clamp conjunct applied at a concrete non-negative
starting total. -/
theorem auto_downgrade_pass_witness :
    0 ≤ (applyDowngrades [] 90 [⟨condTrue, -15, none⟩]).1 :=
  auto_downgrade_pass.1 [] 90 [⟨condTrue, -15, none⟩] (by norm_num)

/-- C6: tier resolution is total and null-safe — null and undefined map
to MicroCap and Tier3 with their fallback labels; a present valuation
resolves to the first configured tier whose band contains it; a present
non-empty exchange name resolves to the first tier whose exchange set
contains it, and to Tier3 when no set contains it; fallback labels are
always non-empty, and with every configured label non-empty (as the spec
requires of the configuration) every resolution yields a non-empty
label. -/
theorem tier_resolution :
    (∀ md : MetricsData,
       getTier md Value.null = ("MicroCap", fdvFallbackLabel md) ∧
       getTier md Value.undef = ("MicroCap", fdvFallbackLabel md) ∧
       getExchangeTier md Value.null = ("Tier3", exchangeFallbackLabel md) ∧
       getExchangeTier md Value.undef = ("Tier3", exchangeFallbackLabel md)) ∧
    (∀ (md : MetricsData) (q : ℚ) (pre post : List (String × FdvTier))
        (p : String × FdvTier),
       md.fdvTiers = pre ++ p :: post →
       (∀ p' ∈ pre, fdvInBand (Value.num q) p'.2 = false) →
       fdvInBand (Value.num q) p.2 = true →
       getTier md (Value.num q) = (p.1, p.2.label)) ∧
    (∀ (md : MetricsData) (s : String) (pre post : List (String × ExchangeTier))
        (p : String × ExchangeTier),
       s ≠ "" →
       md.exchangeTiers = pre ++ p :: post →
       (∀ p' ∈ pre, p'.2.exchanges.contains s = false) →
       p.2.exchanges.contains s = true →
       getExchangeTier md (Value.str s) = (p.1, p.2.label)) ∧
    (∀ (md : MetricsData) (s : String), s ≠ "" →
       (∀ p ∈ md.exchangeTiers, p.2.exchanges.contains s = false) →
       getExchangeTier md (Value.str s) = ("Tier3", exchangeFallbackLabel md)) ∧
    (∀ md : MetricsData, fdvFallbackLabel md ≠ "" ∧ exchangeFallbackLabel md ≠ "") ∧
    (∀ (md : MetricsData) (v : Value), labelsWellFormed md →
       (getTier md v).2 ≠ "" ∧ (getExchangeTier md v).2 ≠ "") := by
  have hfdvLabel : ∀ md : MetricsData, fdvFallbackLabel md ≠ "" := by
    intro md
    unfold fdvFallbackLabel
    cases md.fdvTiers.find? (fun p => p.1 == "MicroCap") with
    | none => simp
    | some p =>
      by_cases h : p.2.label = "" <;> simp [h]
  have hexLabel : ∀ md : MetricsData, exchangeFallbackLabel md ≠ "" := by
    intro md
    unfold exchangeFallbackLabel
    cases md.exchangeTiers.find? (fun p => p.1 == "Tier3") with
    | none => simp
    | some p =>
      by_cases h : p.2.label = "" <;> simp [h]
  refine ⟨?_, ?_, ?_, ?_, fun md => ⟨hfdvLabel md, hexLabel md⟩, ?_⟩
  · intro md
    refine ⟨?_, ?_, ?_, ?_⟩ <;> simp [getTier, getExchangeTier, jsFalsy]
  · intro md q pre post p hsplit hpre hp
    have hne : ¬ (Value.num q = Value.null ∨ Value.num q = Value.undef) := by simp
    have hnone : pre.find? (fun p' => fdvInBand (Value.num q) p'.2) = none :=
      List.find?_eq_none.mpr (fun x hx => by simpa using hpre x hx)
    have hcons : (p :: post).find? (fun p' => fdvInBand (Value.num q) p'.2) = some p :=
      List.find?_cons_of_pos _ hp
    simp only [getTier, if_neg hne, hsplit, List.find?_append, hnone, Option.none_or,
      hcons]
  · intro md s pre post p hs hsplit hpre hp
    have hfalsy : jsFalsy (Value.str s) = false := by simp [jsFalsy, hs]
    have hnone : pre.find? (fun p' => p'.2.exchanges.contains s) = none :=
      List.find?_eq_none.mpr (fun x hx => by simpa using hpre x hx)
    have hcons : (p :: post).find? (fun p' => p'.2.exchanges.contains s) = some p :=
      List.find?_cons_of_pos _ hp
    simp only [getExchangeTier, hfalsy, Bool.false_eq_true, if_false, hsplit,
      List.find?_append, hnone, Option.none_or, hcons]
  · intro md s hs hall
    have hfalsy : jsFalsy (Value.str s) = false := by simp [jsFalsy, hs]
    have hnone : md.exchangeTiers.find? (fun p' => p'.2.exchanges.contains s) = none :=
      List.find?_eq_none.mpr (fun x hx => by simpa using hall x hx)
    simp only [getExchangeTier, hfalsy, Bool.false_eq_true, if_false, hnone]
  · intro md v hwf
    constructor
    · unfold getTier
      split_ifs
      · exact hfdvLabel md
      · cases hfind : md.fdvTiers.find? (fun p => fdvInBand v p.2) with
        | none => simp [hfind, hfdvLabel md]
        | some p =>
          simp only [hfind]
          exact hwf.1 p (List.mem_of_find?_eq_some hfind)
    · unfold getExchangeTier
      split_ifs
      · exact hexLabel md
      · cases hfind : md.exchangeTiers.find? (fun p =>
            match v with
            | Value.str s => p.2.exchanges.contains s
            | _ => false) with
        | none => simp [hfind, hexLabel md]
        | some p =>
          simp only [hfind]
          exact hwf.2 p (List.mem_of_find?_eq_some hfind)

/-- C6 witness: resolution on the concrete tier tables with null inputs
yields the lowest tiers with non-empty labels. -/
theorem tier_resolution_witness :
    (getTier cfgTiers Value.null).2 ≠ "" ∧ (getExchangeTier cfgTiers Value.null).2 ≠ "" :=
  tier_resolution.2.2.2.2.2 cfgTiers Value.null
    (by constructor <;> (intro p hp; simp [cfgTiers] at hp) <;>
        (rcases hp with rfl | rfl <;> simp))

/-- C7: condition evaluation fails closed — a condition whose JS
evaluation throws makes `evaluateCondition` return false instead of
propagating — and scoring still completes: on the configuration whose
first rule's condition throws, the engine returns a full result in
which the later matching rule was applied (snapped total 60, snapped
achieved 3 of 5). -/
theorem condition_fail_closed :
    (∀ (c : Cond) (facts : Facts), c.eval facts = none →
       evaluateCondition c facts = false) ∧
    ((scoreAgreement cfgRaise []).totalScore = 60 ∧
     (scoreAgreement cfgRaise []).metrics.map (fun p => p.2.achieved) = [3]) := by
  constructor
  · intro c facts h
    simp [evaluateCondition, h]
  · constructor <;>
      norm_num +decide [scoreAgreement, rawTotal, evalMetric, flatScan, condHolds,
        evaluateCondition, cfgRaise, mkCfg, flatMetric, condRule, condTrue, condRaise,
        getTier, getExchangeTier, jsGet, jsFalsy, applyDowngrades, snapMetric,
        snapToDisplayScore, jsRound, jsSetDedup, dedupFrom, generateFindings,
        processRedFlags, numOptTruthy, strOptTruthy, fdvFallbackLabel,
        exchangeFallbackLabel, relevantTierOf]

/-- C7 witness: fail-closed evaluation applied to the concrete throwing
condition. -/
theorem condition_fail_closed_witness :
    evaluateCondition condRaise [] = false :=
  condition_fail_closed.1 condRaise [] rfl

/-- C8 counterexample: redaction leaves findings nested in a metric's
per-component breakdown untouched — the confidential description
"secret" and the raw component flag survive redaction — so the claim
that every Finding's description and every flat flag string are replaced
fails. -/
theorem redact_frame_idempotent_cx :
    ((redactResult resultWithComponentFinding).metrics.map
       (fun p => p.2.components.map (fun c => c.2.findings.map (fun f => f.description)))) =
      [[["secret"]]] ∧
    ((redactResult resultWithComponentFinding).metrics.map
       (fun p => p.2.components.map (fun c => c.2.flags))) = [[["raw flag"]]] ∧
    "secret" ≠ REDACTION_MESSAGE ∧ "raw flag" ≠ FLAG_REDACTION_MESSAGE := by
  refine ⟨?_, ?_, by decide, by decide⟩ <;>
    simp [redactResult, resultWithComponentFinding, secretFinding]

/-- C8 (amended): redaction is idempotent and frame-preserving — a
second application changes nothing; total score, grade, grade
description, tier info and every metric's numeric fields and component
breakdown are untouched; every top-level and metric-level finding keeps
its severity, category, title, metric and component while its
description and recommendation become the fixed upsell message; every
top-level flag becomes the fixed flag message; finding counts are
preserved.  (Findings and flags nested in a component breakdown are not
redacted.) -/
theorem redact_frame_idempotent :
    (∀ r : ScoringResult, redactResult (redactResult r) = redactResult r) ∧
    (∀ r : ScoringResult,
       (redactResult r).totalScore = r.totalScore ∧
       (redactResult r).grade = r.grade ∧
       (redactResult r).gradeDescription = r.gradeDescription ∧
       (redactResult r).tierInfo = r.tierInfo) ∧
    (∀ r : ScoringResult,
       (redactResult r).metrics.map
           (fun p => (p.1, p.2.score, p.2.maxPossible, p.2.achieved, p.2.components)) =
         r.metrics.map
           (fun p => (p.1, p.2.score, p.2.maxPossible, p.2.achieved, p.2.components))) ∧
    (∀ r : ScoringResult,
       (redactResult r).findings = r.findings.map redactFinding ∧
       (redactResult r).flags = r.flags.map (fun _ => FLAG_REDACTION_MESSAGE) ∧
       (redactResult r).recommendations = r.recommendations.map (fun _ => REDACTION_MESSAGE) ∧
       (redactResult r).metrics.map (fun p => p.2.findings) =
         r.metrics.map (fun p => p.2.findings.map redactFinding)) ∧
    (∀ f : Finding, redactFinding f =
       ⟨f.severity, f.category, f.title, REDACTION_MESSAGE, REDACTION_MESSAGE,
        f.metric, f.component⟩) ∧
    (∀ r : ScoringResult, (redactResult r).findings.length = r.findings.length) := by
  have hfin : ∀ l : List Finding, (l.map redactFinding).map redactFinding = l.map redactFinding := by
    intro l
    rw [List.map_map]
    exact List.map_congr_left (fun f _ => rfl)
  refine ⟨?_, ?_, ?_, ?_, fun f => rfl, fun r => by simp [redactResult]⟩
  · intro r
    cases r with
    | mk total grade gd mets flags recs ti fins =>
      simp only [redactResult, hfin]
      congr 1
      all_goals
        first
          | rfl
          | (rw [List.map_map]
             exact List.map_congr_left (fun p _ => by simp [hfin]))
  · intro r
    exact ⟨rfl, rfl, rfl, rfl⟩
  · intro r
    simp only [redactResult, List.map_map]
    exact List.map_congr_left (fun p _ => rfl)
  · intro r
    refine ⟨rfl, rfl, rfl, ?_⟩
    simp only [redactResult, List.map_map]
    exact List.map_congr_left (fun p _ => rfl)

/-- C9: redaction maps every recommendation to the same fixed message,
preserving the list's length; hence any result with two or more
recommendations redacts to a list with duplicate text, and the
no-duplicate-recommendations property fails on redacted views. -/
theorem redact_recommendations_uniform (r : ScoringResult) :
    (redactResult r).recommendations.length = r.recommendations.length ∧
    (∀ x ∈ (redactResult r).recommendations, x = REDACTION_MESSAGE) ∧
    (2 ≤ r.recommendations.length → ¬ (redactResult r).recommendations.Nodup) := by
  have e : (redactResult r).recommendations = r.recommendations.map (fun _ => REDACTION_MESSAGE) :=
    rfl
  refine ⟨by simp [e], ?_, ?_⟩
  · intro x hx
    rw [e] at hx
    obtain ⟨a, _, rfl⟩ := List.mem_map.mp hx
    rfl
  · intro h2 hnd
    rw [e] at hnd
    rcases hr : r.recommendations with _ | ⟨a, _ | ⟨b, t⟩⟩ <;> rw [hr] at h2 hnd
    · simp at h2
    · simp at h2
    · simp [List.nodup_cons] at hnd

/-- C9 witness: a concrete result with two distinct recommendations
redacts to a list that is no longer duplicate-free. -/
theorem redact_recommendations_uniform_witness :
    ¬ (redactResult resultTwoRecs).recommendations.Nodup :=
  (redact_recommendations_uniform resultTwoRecs).2.2 (by simp [resultTwoRecs])

/-- C10: an exchange name that is present but empty is treated exactly
like an absent one — for every configuration, even one whose exchange
sets contain the empty string, the empty-string exchange resolves to
Tier3 with its fallback label, identically to null and undefined. -/
theorem empty_exchange_lowest_tier (md : MetricsData) :
    getExchangeTier md (Value.str "") = ("Tier3", exchangeFallbackLabel md) ∧
    getExchangeTier md (Value.str "") = getExchangeTier md Value.null ∧
    getExchangeTier md (Value.str "") = getExchangeTier md Value.undef := by
  refine ⟨?_, ?_, ?_⟩ <;> simp [getExchangeTier, jsFalsy]

end Engine
